import Mathlib

/-!
Shallow embedding of the voice-chat front end (`gradio_app/app.py`).

The program is a thin orchestration layer: capture audio, write it to a temp
file, POST it to a fixed endpoint, classify the outcome, and maintain a chat
history persisted as a JSON array in a fixed temp-directory file.

Modelling choices:
* the filesystem is an association list from path strings to file contents;
* a history file either holds a parseable JSON history (`jsonHistory`) or
  unparseable content (`corrupt`); audio files hold raw bytes or WAV data;
* environmental outcomes the Python code observes through exceptions
  (request timeout, connection error, write failures, history-save failure)
  are supplied by an `Env` oracle record, so `voice_chat` is a total function
  from inputs, oracle and world state to a result triple and a new world;
* the network call counter in `World` records that the HTTP POST was issued.
-/

namespace VoiceChat

/-- One chat turn: the 3-element history entry `[user_msg, ai_msg, timestamp]`
of the Python app; the assistant side is `None` for error turns. -/
structure Turn where
  userMsg : String
  aiMsg : Option String
  timestamp : String
deriving DecidableEq

/-- Contents of one file in the modelled filesystem. -/
inductive FileContent where
  /-- A file whose text is a JSON array parsing to this history. -/
  | jsonHistory (h : List Turn)
  /-- A WAV file as written by `scipy.io.wavfile.write`. -/
  | wav (sr : Nat) (samples : List Int)
  /-- Raw bytes, as written for the response audio. -/
  | bytes (b : List Nat)
  /-- Content on which `json.load` fails. -/
  | corrupt
deriving DecidableEq

/-- Byte size of a file, as `os.path.getsize` reports it.  Only the `bytes`
case is ever inspected by the code; the other values are nominal. -/
def FileContent.size : FileContent → Nat
  | .jsonHistory h => 2 + 40 * h.length
  | .wav _ samples => 44 + 2 * samples.length
  | .bytes b => b.length
  | .corrupt => 1

/-- The filesystem: an association list from paths to contents. -/
abbrev FS := List (String × FileContent)

def fsLookup : FS → String → Option FileContent
  | [], _ => none
  | (q, c) :: rest, p => if p = q then some c else fsLookup rest p

def fsWrite : FS → String → FileContent → FS
  | [], p, c => [(p, c)]
  | (q, d) :: rest, p, c => if p = q then (p, c) :: rest else (q, d) :: fsWrite rest p c

def fsRemove : FS → String → FS
  | [], _ => []
  | (q, d) :: rest, p => if p = q then fsRemove rest p else (q, d) :: fsRemove rest p

def fsExists (fs : FS) (p : String) : Bool := (fsLookup fs p).isSome

/-- `os.path.getsize`, 0 on a missing file. -/
def fsSize (fs : FS) (p : String) : Nat :=
  match fsLookup fs p with
  | some c => c.size
  | none => 0

/-- `tempfile.gettempdir()` of the reference environment. -/
def tempDir : String := "/tmp"

/-- `HISTORY_PATH = os.path.join(tempfile.gettempdir(), "voice_chat_history.json")`. -/
def HISTORY_PATH : String := "/tmp/voice_chat_history.json"

def API_URL : String := "http://localhost:8000/voice-chat"

def REQUEST_TIMEOUT : Nat := 300

/-- `f"input_{int(time.time())}.wav"` joined to the temp dir. -/
def inputAudioPath (t : Nat) : String := "/tmp/input_" ++ toString t ++ ".wav"

/-- `f"tts_output_{int(time.time())}.wav"` joined to the temp dir. -/
def outputAudioPath (t : Nat) : String := "/tmp/tts_output_" ++ toString t ++ ".wav"

/-- `load_chat_history`: if the file exists, try to parse it, swallowing any
parse failure into `[]`; if it does not exist, return `[]`. -/
def load_chat_history (fs : FS) : List Turn :=
  if fsExists fs HISTORY_PATH then
    match fsLookup fs HISTORY_PATH with
    | some (.jsonHistory h) => h
    | _ => []
  else []

/-- `save_chat_history`: rewrite the whole file with the given history; a
write failure (`writeOk = false`) is logged and swallowed, leaving the
filesystem unchanged. -/
def save_chat_history (fs : FS) (history : List Turn) (writeOk : Bool) : FS :=
  if writeOk then fsWrite fs HISTORY_PATH (.jsonHistory history) else fs

/-- `clear_history`: remove the history file if present; return the emptied
in-memory history and the localized status message. -/
def clear_history (fs : FS) : FS × List Turn × String :=
  (if fsExists fs HISTORY_PATH then fsRemove fs HISTORY_PATH else fs,
   [], "🗑️ Riwayat percakapan telah dihapus")

/-- Outcome of parsing an HTTP error body with `response.json()` followed by
`.get('message', ...)`: either the parse (or attribute access) raises, or it
yields an object with an optional `message` field. -/
inductive ParseResult where
  | fail
  | obj (message : Option String)
deriving DecidableEq

/-- Outcome of the `requests.post` call. -/
inductive HttpOutcome where
  | timeout
  | connectionError
  | otherError (msg : String)
  | response (status : Nat) (content : List Nat) (parsed : ParseResult)
deriving DecidableEq

/-- Outcome of a local file write: success, a silent failure (no exception
but the post-write exists/size verification fails), or an exception. -/
inductive WriteOutcome where
  | ok
  | silentFail
  | raised (msg : String)
deriving DecidableEq

/-- The captured microphone clip `(sr, audio_data)`. -/
structure AudioClip where
  sr : Nat
  samples : List Int
deriving DecidableEq

/-- Environmental oracle for one `voice_chat` call. -/
structure Env where
  /-- `datetime.now().strftime("%H:%M:%S")`. -/
  timestamp : String
  /-- `int(time.time())`, used in both temp filenames. -/
  epochTime : Nat
  /-- Outcome of `scipy.io.wavfile.write` plus the line-64 exists check. -/
  wavWrite : WriteOutcome
  /-- Outcome of the `requests.post` call. -/
  http : HttpOutcome
  /-- Outcome of writing `response.content` to the output file. -/
  outWrite : WriteOutcome
  /-- Whether the history-file write in `save_chat_history` succeeds. -/
  saveOk : Bool
deriving DecidableEq

/-- Mutable world state threaded through a call: the filesystem and a counter
of issued network requests. -/
structure World where
  fs : FS
  netCalls : Nat
deriving DecidableEq

/-- The triple `voice_chat` returns: output audio path (or none), updated
history, and the status message. -/
structure VCResult where
  output : Option String
  history : List Turn
  status : String
deriving DecidableEq

def noInputMsg : String := "⚠️ Mohon rekam suara terlebih dahulu"

def saveFailMsg : String := "⚠️ Gagal menyimpan file audio"

def timeoutMsg : String :=
  "🕒 Waktu permintaan habis. Server membutuhkan waktu terlalu lama untuk merespons."

def connectionMsg : String :=
  "🔌 Tidak dapat terhubung ke server. Pastikan server berjalan di http://localhost:8000"

def requestErrMsg (m : String) : String := "🔴 Error: " ++ m

def emptyResponseMsg : String := "⚠️ Server mengembalikan respons kosong"

def invalidOutputMsg : String := "⚠️ File audio respons kosong atau tidak valid"

def outWriteFailMsg (m : String) : String := "⚠️ Gagal menyimpan file audio respons: " ++ m

def successMsg : String := "✅ Berhasil mendapatkan respons"

def statusCodeDetail (status : Nat) : String := "Kode status: " ++ toString status

def serverErrMsg (detail : String) : String := "⚠️ Server Error: " ++ detail

def unexpectedMsg (m : String) : String := "⚠️ Terjadi kesalahan: " ++ m

def userVoiceMsg : String := "🎤 Pesan Suara"

def aiVoiceMsg : String := "🔊 Balasan Suara"

/-- `error_detail` of the non-200 branch: `{}` for an empty body, else the
parsed body's `message` field, defaulting to the raw status code on a missing
field or a parse exception. -/
def errorDetail (status : Nat) (content : List Nat) (parsed : ParseResult) : String :=
  if content.isEmpty then statusCodeDetail status
  else
    match parsed with
    | .obj (some m) => m
    | _ => statusCodeDetail status

/-- `return None, history + [[error_msg, None, timestamp]], error_msg`. -/
def errorReturn (history : List Turn) (msg ts : String) : VCResult :=
  { output := none, history := history ++ [⟨msg, none, ts⟩], status := msg }

/-- The phase of `voice_chat` from the `requests.post` call onward (lines
71–148): issue the request (counted in `netCalls`), then classify the
outcome. -/
def doRequest (history : List Turn) (ts : String) (outPath : String) (env : Env)
    (w : World) : VCResult × World :=
  let w1 : World := { w with netCalls := w.netCalls + 1 }
  match env.http with
  | .timeout => (errorReturn history timeoutMsg ts, w1)
  | .connectionError => (errorReturn history connectionMsg ts, w1)
  | .otherError m => (errorReturn history (requestErrMsg m) ts, w1)
  | .response status content parsed =>
    if status = 200 then
      if content.isEmpty then (errorReturn history emptyResponseMsg ts, w1)
      else
        match env.outWrite with
        | .raised m => (errorReturn history (outWriteFailMsg m) ts, w1)
        | .silentFail => (errorReturn history invalidOutputMsg ts, w1)
        | .ok =>
          let fs1 := fsWrite w1.fs outPath (.bytes content)
          let w2 : World := { w1 with fs := fs1 }
          if fsExists fs1 outPath = false ∨ fsSize fs1 outPath = 0 then
            (errorReturn history invalidOutputMsg ts, w2)
          else
            let newHistory := history ++ [⟨userVoiceMsg, some aiVoiceMsg, ts⟩]
            let w3 : World := { w2 with fs := save_chat_history fs1 newHistory env.saveOk }
            ({ output := some outPath, history := newHistory, status := successMsg }, w3)
    else
      (errorReturn history (serverErrMsg (errorDetail status content parsed)) ts, w1)

/-- `voice_chat(audio, history)`: reject when no audio was captured, write the
input WAV (an exception anywhere in the outer `try` lands in the generic
handler of line 150), verify it exists, POST it, and classify the response. -/
def voice_chat ( audio : Option AudioClip) (history : List Turn) (env : Env)
    (w : World) : VCResult × World :=
  match audio with
  | none => ({ output := none, history := history, status := noInputMsg }, w)
  | some clip =>
    let ts := env.timestamp
    let audioPath := inputAudioPath env.epochTime
    match env.wavWrite with
    | .raised m => (errorReturn history (unexpectedMsg m) ts, w)
    | .silentFail =>
      ({ output := none, history := history, status := saveFailMsg }, w)
    | .ok =>
      let w1 : World := { w with fs := fsWrite w.fs audioPath (.wav clip.sr clip.samples) }
      if fsExists w1.fs audioPath then
        doRequest history ts (outputAudioPath env.epochTime) env w1
      else
        ({ output := none, history := history, status := saveFailMsg }, w1)

theorem fsLookup_fsWrite_self (fs : FS) (p : String) (c : FileContent) :
    fsLookup (fsWrite fs p c) p = some c := by
  induction fs with
  | nil => simp [fsWrite, fsLookup]
  | cons hd tl ih =>
    obtain ⟨q, d⟩ := hd
    by_cases h : p = q
    · simp [fsWrite, fsLookup, h]
    · simp [fsWrite, fsLookup, h, ih]

theorem fsLookup_fsWrite_ne (fs : FS) (p q : String) (c : FileContent) (h : q ≠ p) :
    fsLookup (fsWrite fs p c) q = fsLookup fs q := by
  induction fs with
  | nil => simp [fsWrite, fsLookup, h]
  | cons hd tl ih =>
    obtain ⟨r, d⟩ := hd
    by_cases hp : p = r
    · subst hp
      simp [fsWrite, fsLookup, h]
    · by_cases hq : q = r
      · simp [fsWrite, fsLookup, hp, hq]
      · simp [fsWrite, fsLookup, hp, hq, ih]

theorem fsLookup_fsRemove_self (fs : FS) (p : String) :
    fsLookup (fsRemove fs p) p = none := by
  induction fs with
  | nil => simp [fsRemove, fsLookup]
  | cons hd tl ih =>
    obtain ⟨q, d⟩ := hd
    by_cases h : p = q
    · subst h
      simp [fsRemove, fsLookup, ih]
    · simp [fsRemove, fsLookup, h, ih]

theorem outputPath_ne_historyPath (t : Nat) : outputAudioPath t ≠ HISTORY_PATH := by
  intro h
  have hd : (outputAudioPath t).data = HISTORY_PATH.data := congrArg String.data h
  unfold outputAudioPath HISTORY_PATH at hd
  rw [String.data_append, String.data_append] at hd
  simp at hd

theorem fsExists_fsWrite_self (fs : FS) (p : String) (c : FileContent) :
    fsExists (fsWrite fs p c) p = true := by
  simp [fsExists, fsLookup_fsWrite_self]

theorem fsSize_fsWrite_self (fs : FS) (p : String) (c : FileContent) :
    fsSize (fsWrite fs p c) p = c.size := by
  simp [fsSize, fsLookup_fsWrite_self]

/-- Claim C3: for every history `h` and turn `t`, saving `h ++ [t]` and then
loading from the persisted file (a fresh load) yields a sequence whose last
element equals `t` — round-trip persistence of append followed by load. -/
theorem append_then_load_last (fs : FS) (h : List Turn) (t : Turn) :
    load_chat_history (save_chat_history fs (h ++ [t]) true) = h ++ [t] ∧
    (load_chat_history (save_chat_history fs (h ++ [t]) true)).getLast? = some t := by
  have hl : fsLookup (fsWrite fs HISTORY_PATH (.jsonHistory (h ++ [t]))) HISTORY_PATH
      = some (.jsonHistory (h ++ [t])) := fsLookup_fsWrite_self ..
  constructor
  · simp [load_chat_history, save_chat_history, fsExists, hl]
  · simp [load_chat_history, save_chat_history, fsExists, hl]

/-- Claim C7: `load_chat_history` on a missing file, or on a file whose
contents fail to parse as a history, returns the empty sequence (and, being a
total function, never raises). -/
theorem load_missing_or_corrupt_empty (fs : FS) :
    (fsLookup fs HISTORY_PATH = none → load_chat_history fs = []) ∧
    (∀ c : FileContent, fsLookup fs HISTORY_PATH = some c →
      (∀ h : List Turn, c ≠ FileContent.jsonHistory h) → load_chat_history fs = []) := by
  constructor
  · intro h
    simp [load_chat_history, fsExists, h]
  · intro c hc hn
    cases c with
    | jsonHistory h => exact absurd rfl (hn h)
    | wav sr s => simp [load_chat_history, fsExists, hc]
    | bytes b => simp [load_chat_history, fsExists, hc]
    | corrupt => simp [load_chat_history, fsExists, hc]

theorem load_missing_or_corrupt_empty_witness :
    load_chat_history [] = [] ∧
    load_chat_history [(HISTORY_PATH, FileContent.corrupt)] = [] :=
  ⟨(load_missing_or_corrupt_empty []).1 rfl,
   (load_missing_or_corrupt_empty [(HISTORY_PATH, FileContent.corrupt)]).2
     FileContent.corrupt (by simp [fsLookup]) (fun h hx => FileContent.noConfusion hx)⟩

/-- Claim C8: `voice_chat` with no captured audio returns the NoInput message
with the history unchanged and the world (filesystem and network-call
counter) untouched: no network I/O and no file write happen. -/
theorem no_input_no_effect (history : List Turn) (env : Env) (w : World) :
    voice_chat none history env w
      = ({ output := none, history := history, status := noInputMsg }, w) := rfl

/-- Claim C9: `clear_history` returns the emptied in-memory history, a
subsequent `load_chat_history` returns the empty sequence, and after the call
the persisted history file does not exist (whether or not it did before). -/
theorem clear_then_load_empty (fs : FS) :
    (clear_history fs).2.1 = [] ∧
    load_chat_history (clear_history fs).1 = [] ∧
    fsExists (clear_history fs).1 HISTORY_PATH = false := by
  cases hE : fsExists fs HISTORY_PATH with
  | false =>
    refine ⟨rfl, ?_, ?_⟩
    · simp [clear_history, hE, load_chat_history]
    · simp [clear_history, hE]
  | true =>
    have hE2 : (fsLookup fs HISTORY_PATH).isSome = true := hE
    refine ⟨rfl, ?_, ?_⟩
    · simp [clear_history, fsExists, hE2, load_chat_history, fsLookup_fsRemove_self]
    · simp [clear_history, fsExists, hE2, fsLookup_fsRemove_self]

/-- Claim C4: a 200 response with an empty body yields the EmptyResponse
error — no output audio path despite the success status — and the error turn
is appended to the history. -/
theorem empty_body_is_error (a : AudioClip) (history : List Turn) (env : Env)
    (w : World) (p : ParseResult)
    (hw : env.wavWrite = WriteOutcome.ok)
    (hh : env.http = HttpOutcome.response 200 [] p) :
    (voice_chat (some a) history env w).1.output = none ∧
    (voice_chat (some a) history env w).1.status = emptyResponseMsg ∧
    (voice_chat (some a) history env w).1.history
      = history ++ [⟨emptyResponseMsg, none, env.timestamp⟩] := by
  simp [voice_chat, doRequest, hw, hh, fsExists_fsWrite_self, errorReturn]

theorem empty_body_is_error_witness :
    (voice_chat (some ⟨16000, [0, 1]⟩) []
        ⟨"12:00:00", 5, WriteOutcome.ok, HttpOutcome.response 200 [] ParseResult.fail,
          WriteOutcome.ok, true⟩ ⟨[], 0⟩).1.output = none ∧
    (voice_chat (some ⟨16000, [0, 1]⟩) []
        ⟨"12:00:00", 5, WriteOutcome.ok, HttpOutcome.response 200 [] ParseResult.fail,
          WriteOutcome.ok, true⟩ ⟨[], 0⟩).1.status = emptyResponseMsg ∧
    (voice_chat (some ⟨16000, [0, 1]⟩) []
        ⟨"12:00:00", 5, WriteOutcome.ok, HttpOutcome.response 200 [] ParseResult.fail,
          WriteOutcome.ok, true⟩ ⟨[], 0⟩).1.history
      = [] ++ [⟨emptyResponseMsg, none, "12:00:00"⟩] :=
  empty_body_is_error ⟨16000, [0, 1]⟩ []
    ⟨"12:00:00", 5, WriteOutcome.ok, HttpOutcome.response 200 [] ParseResult.fail,
      WriteOutcome.ok, true⟩ ⟨[], 0⟩ ParseResult.fail rfl rfl

/-- Claim C5: a 200 response with a non-empty body of `content` bytes makes
`voice_chat` return the output path, the output file holds exactly those
bytes, and the updated history ends with the success turn (user label,
assistant label, timestamp). -/
theorem success_writes_bytes (a : AudioClip) (history : List Turn) (env : Env)
    (w : World) (content : List Nat) (p : ParseResult)
    (hw : env.wavWrite = WriteOutcome.ok) (ho : env.outWrite = WriteOutcome.ok)
    (hh : env.http = HttpOutcome.response 200 content p) (hc : content ≠ []) :
    (voice_chat (some a) history env w).1.output
      = some (outputAudioPath env.epochTime) ∧
    fsLookup (voice_chat (some a) history env w).2.fs (outputAudioPath env.epochTime)
      = some (FileContent.bytes content) ∧
    (voice_chat (some a) history env w).1.history
      = history ++ [⟨userVoiceMsg, some aiVoiceMsg, env.timestamp⟩] ∧
    (voice_chat (some a) history env w).1.status = successMsg := by
  have hce : content.isEmpty = false := by
    cases content with
    | nil => exact absurd rfl hc
    | cons x xs => rfl
  have hlen : content.length ≠ 0 := by
    cases content with
    | nil => exact absurd rfl hc
    | cons x xs => simp
  cases hso : env.saveOk with
  | false =>
    simp [voice_chat, doRequest, hw, hh, ho, hso, hce, hlen, fsExists_fsWrite_self,
      fsSize_fsWrite_self, FileContent.size, save_chat_history, fsLookup_fsWrite_self]
  | true =>
    simp [voice_chat, doRequest, hw, hh, ho, hso, hce, hlen, fsExists_fsWrite_self,
      fsSize_fsWrite_self, FileContent.size, save_chat_history,
      fsLookup_fsWrite_ne _ _ _ _ (outputPath_ne_historyPath env.epochTime),
      fsLookup_fsWrite_self]

theorem success_writes_bytes_witness :
    (voice_chat (some ⟨16000, [0, 1]⟩) []
        ⟨"12:00:00", 5, WriteOutcome.ok, HttpOutcome.response 200 [7, 8, 9] ParseResult.fail,
          WriteOutcome.ok, true⟩ ⟨[], 0⟩).1.output = some (outputAudioPath 5) ∧
    fsLookup (voice_chat (some ⟨16000, [0, 1]⟩) []
        ⟨"12:00:00", 5, WriteOutcome.ok, HttpOutcome.response 200 [7, 8, 9] ParseResult.fail,
          WriteOutcome.ok, true⟩ ⟨[], 0⟩).2.fs (outputAudioPath 5)
      = some (FileContent.bytes [7, 8, 9]) ∧
    (voice_chat (some ⟨16000, [0, 1]⟩) []
        ⟨"12:00:00", 5, WriteOutcome.ok, HttpOutcome.response 200 [7, 8, 9] ParseResult.fail,
          WriteOutcome.ok, true⟩ ⟨[], 0⟩).1.history
      = [] ++ [⟨userVoiceMsg, some aiVoiceMsg, "12:00:00"⟩] ∧
    (voice_chat (some ⟨16000, [0, 1]⟩) []
        ⟨"12:00:00", 5, WriteOutcome.ok, HttpOutcome.response 200 [7, 8, 9] ParseResult.fail,
          WriteOutcome.ok, true⟩ ⟨[], 0⟩).1.status = successMsg :=
  success_writes_bytes ⟨16000, [0, 1]⟩ []
    ⟨"12:00:00", 5, WriteOutcome.ok, HttpOutcome.response 200 [7, 8, 9] ParseResult.fail,
      WriteOutcome.ok, true⟩ ⟨[], 0⟩ [7, 8, 9] ParseResult.fail rfl rfl rfl (by decide)

/-- Claim C6: a response whose status is not 200 yields the Server Error
message built from `errorDetail`: when the body is non-empty and parses to an
object with a `message` field, the surfaced text contains that message;
when the parse fails, the field is missing, or the body is empty, the text
contains the rendered raw status code. -/
theorem server_error_detail (a : AudioClip) (history : List Turn) (env : Env)
    (w : World) (status : Nat) (content : List Nat) (parsed : ParseResult)
    (hw : env.wavWrite = WriteOutcome.ok)
    (hh : env.http = HttpOutcome.response status content parsed)
    (hns : status ≠ 200) :
    (voice_chat (some a) history env w).1.output = none ∧
    (voice_chat (some a) history env w).1.status
      = serverErrMsg (errorDetail status content parsed) ∧
    (∀ m : String, parsed = ParseResult.obj (some m) → content ≠ [] →
      ∃ pre post : List Char,
        ((voice_chat (some a) history env w).1.status).data
          = pre ++ m.data ++ post) ∧
    ((parsed = ParseResult.fail ∨ parsed = ParseResult.obj none ∨ content = []) →
      ∃ pre post : List Char,
        ((voice_chat (some a) history env w).1.status).data
          = pre ++ (toString status).data ++ post) := by
  have hmain : (voice_chat (some a) history env w).1.output = none ∧
      (voice_chat (some a) history env w).1.status
        = serverErrMsg (errorDetail status content parsed) := by
    simp [voice_chat, doRequest, hw, hh, hns, fsExists_fsWrite_self, errorReturn]
  refine ⟨hmain.1, hmain.2, ?_, ?_⟩
  · intro m hm hcne
    have hce : content.isEmpty = false := by
      cases content with
      | nil => exact absurd rfl hcne
      | cons x xs => rfl
    have hd : errorDetail status content parsed = m := by
      simp [errorDetail, hce, hm]
    refine ⟨"⚠️ Server Error: ".data, [], ?_⟩
    rw [hmain.2, hd]
    simp [serverErrMsg, String.data_append]
  · intro hcase
    have hd : errorDetail status content parsed = statusCodeDetail status := by
      rcases hcase with h | h | h
      · subst h
        unfold errorDetail
        split <;> rfl
      · subst h
        unfold errorDetail
        split <;> rfl
      · subst h
        rfl
    refine ⟨("⚠️ Server Error: " ++ "Kode status: ").data, [], ?_⟩
    rw [hmain.2, hd]
    simp [serverErrMsg, statusCodeDetail, String.data_append]

theorem server_error_detail_witness :
    (voice_chat (some ⟨16000, [0, 1]⟩) []
        ⟨"12:00:00", 5, WriteOutcome.ok,
          HttpOutcome.response 500 [1] (ParseResult.obj (some "boom")),
          WriteOutcome.ok, true⟩ ⟨[], 0⟩).1.status
      = serverErrMsg (errorDetail 500 [1] (ParseResult.obj (some "boom"))) ∧
    (∃ pre post : List Char,
      ((voice_chat (some ⟨16000, [0, 1]⟩) []
          ⟨"12:00:00", 5, WriteOutcome.ok,
            HttpOutcome.response 500 [1] (ParseResult.obj (some "boom")),
            WriteOutcome.ok, true⟩ ⟨[], 0⟩).1.status).data
        = pre ++ "boom".data ++ post) :=
  ⟨(server_error_detail ⟨16000, [0, 1]⟩ []
      ⟨"12:00:00", 5, WriteOutcome.ok,
        HttpOutcome.response 500 [1] (ParseResult.obj (some "boom")),
        WriteOutcome.ok, true⟩ ⟨[], 0⟩ 500 [1] (ParseResult.obj (some "boom"))
      rfl rfl (by decide)).2.1,
   (server_error_detail ⟨16000, [0, 1]⟩ []
      ⟨"12:00:00", 5, WriteOutcome.ok,
        HttpOutcome.response 500 [1] (ParseResult.obj (some "boom")),
        WriteOutcome.ok, true⟩ ⟨[], 0⟩ 500 [1] (ParseResult.obj (some "boom"))
      rfl rfl (by decide)).2.2.1 "boom" rfl (by decide)⟩

/-- Exhaustive shape of a `voice_chat` call with audio present: either the
success turn is appended, or the input-save failure leaves the history
unchanged, or an error turn labelled by the status message is appended. -/
theorem voice_chat_cases (a : AudioClip) (history : List Turn) (env : Env) (w : World) :
    ((voice_chat (some a) history env w).1.status = successMsg ∧
     (voice_chat (some a) history env w).1.output = some (outputAudioPath env.epochTime) ∧
     (voice_chat (some a) history env w).1.history
       = history ++ [⟨userVoiceMsg, some aiVoiceMsg, env.timestamp⟩]) ∨
    ((voice_chat (some a) history env w).1.status = saveFailMsg ∧
     (voice_chat (some a) history env w).1.output = none ∧
     (voice_chat (some a) history env w).1.history = history) ∨
    ((voice_chat (some a) history env w).1.output = none ∧
     (voice_chat (some a) history env w).1.history
       = history ++ [⟨(voice_chat (some a) history env w).1.status, none,
           env.timestamp⟩]) := by
  cases hwv : env.wavWrite with
  | raised m =>
    right; right
    simp [voice_chat, hwv, errorReturn]
  | silentFail =>
    right; left
    simp [voice_chat, hwv]
  | ok =>
    cases hht : env.http with
    | timeout =>
      right; right
      simp [voice_chat, doRequest, hwv, hht, fsExists_fsWrite_self, errorReturn]
    | connectionError =>
      right; right
      simp [voice_chat, doRequest, hwv, hht, fsExists_fsWrite_self, errorReturn]
    | otherError m =>
      right; right
      simp [voice_chat, doRequest, hwv, hht, fsExists_fsWrite_self, errorReturn]
    | response st content parsed =>
      by_cases h200 : st = 200
      · subst h200
        cases hce : content.isEmpty with
        | true =>
          right; right
          simp [voice_chat, doRequest, hwv, hht, hce, fsExists_fsWrite_self, errorReturn]
        | false =>
          cases how : env.outWrite with
          | raised m =>
            right; right
            simp [voice_chat, doRequest, hwv, hht, hce, how, fsExists_fsWrite_self,
              errorReturn]
          | silentFail =>
            right; right
            simp [voice_chat, doRequest, hwv, hht, hce, how, fsExists_fsWrite_self,
              errorReturn]
          | ok =>
            have hlen : content.length ≠ 0 := by
              cases content with
              | nil => simp at hce
              | cons x xs => simp
            left
            simp [voice_chat, doRequest, hwv, hht, hce, how, fsExists_fsWrite_self,
              fsSize_fsWrite_self, FileContent.size, hlen]
      · right; right
        simp [voice_chat, doRequest, hwv, hht, h200, fsExists_fsWrite_self, errorReturn]

/-- Claim C1 counterexample: on the input-audio save failure (the line-64
exists check fails after `scipy.io.wavfile.write`), `voice_chat` surfaces an
error other than NoInput yet returns the history unchanged — no error turn
is appended, where the claim would require the returned history to hold one
new turn. -/
theorem save_failure_no_append_cex :
    (voice_chat (some ⟨16000, [0]⟩) []
        ⟨"12:00:00", 5, WriteOutcome.silentFail, HttpOutcome.timeout,
          WriteOutcome.ok, true⟩ ⟨[], 0⟩).1.status = saveFailMsg ∧
    saveFailMsg ≠ noInputMsg ∧
    (voice_chat (some ⟨16000, [0]⟩) []
        ⟨"12:00:00", 5, WriteOutcome.silentFail, HttpOutcome.timeout,
          WriteOutcome.ok, true⟩ ⟨[], 0⟩).1.history = [] := by
  refine ⟨rfl, ?_, rfl⟩
  decide

/-- Claim C1 amended: for every error outcome of `voice_chat` other than
NoInput and the input-audio save failure, the returned history equals the
input history with one new turn appended whose assistant-side entry is
`none` and whose user-side label is the error text; the input-audio save
failure, like NoInput, returns the history unchanged. -/
theorem error_turn_appended (a : AudioClip) (history : List Turn) (env : Env)
    (w : World) :
    ((voice_chat (some a) history env w).1.status ≠ successMsg →
     (voice_chat (some a) history env w).1.status ≠ saveFailMsg →
     (voice_chat (some a) history env w).1.output = none ∧
     (voice_chat (some a) history env w).1.history
       = history ++ [⟨(voice_chat (some a) history env w).1.status, none,
           env.timestamp⟩]) ∧
    (env.wavWrite = WriteOutcome.silentFail →
     (voice_chat (some a) history env w).1.history = history) := by
  constructor
  · intro hs hn
    rcases voice_chat_cases a history env w with ⟨h1, _, _⟩ | ⟨h1, _, _⟩ | ⟨h1, h2⟩
    · exact absurd h1 hs
    · exact absurd h1 hn
    · exact ⟨h1, h2⟩
  · intro hsf
    simp [voice_chat, hsf]

theorem error_turn_appended_witness :
    (voice_chat (some ⟨16000, [0]⟩) []
        ⟨"12:00:00", 5, WriteOutcome.ok, HttpOutcome.timeout, WriteOutcome.ok, true⟩
        ⟨[], 0⟩).1.output = none ∧
    (voice_chat (some ⟨16000, [0]⟩) []
        ⟨"12:00:00", 5, WriteOutcome.ok, HttpOutcome.timeout, WriteOutcome.ok, true⟩
        ⟨[], 0⟩).1.history
      = [] ++ [⟨(voice_chat (some ⟨16000, [0]⟩) []
          ⟨"12:00:00", 5, WriteOutcome.ok, HttpOutcome.timeout, WriteOutcome.ok, true⟩
          ⟨[], 0⟩).1.status, none, "12:00:00"⟩] :=
  (error_turn_appended ⟨16000, [0]⟩ []
      ⟨"12:00:00", 5, WriteOutcome.ok, HttpOutcome.timeout, WriteOutcome.ok, true⟩
      ⟨[], 0⟩).1 (by decide) (by decide)

/-- Claim C2 counterexample: a request timeout appends an error turn to the
returned history, yet nothing is written to the persisted history file — the
filesystem holds no entry at `HISTORY_PATH` after the call. -/
theorem error_append_not_persisted_cex :
    (voice_chat (some ⟨16000, [0]⟩) []
        ⟨"12:00:00", 5, WriteOutcome.ok, HttpOutcome.timeout, WriteOutcome.ok, true⟩
        ⟨[], 0⟩).1.history ≠ [] ∧
    fsLookup (voice_chat (some ⟨16000, [0]⟩) []
        ⟨"12:00:00", 5, WriteOutcome.ok, HttpOutcome.timeout, WriteOutcome.ok, true⟩
        ⟨[], 0⟩).2.fs HISTORY_PATH = none := by
  decide

/-- Claim C2 amended: the full updated history is written to the persisted
JSON file before the call returns only on the success path — when
`voice_chat` appends the success turn and the history-file write succeeds,
the file then holds exactly the updated history; error-turn appends are not
persisted. -/
theorem success_append_persisted (a : AudioClip) (history : List Turn) (env : Env)
    (w : World) (content : List Nat) (p : ParseResult)
    (hw : env.wavWrite = WriteOutcome.ok) (ho : env.outWrite = WriteOutcome.ok)
    (hh : env.http = HttpOutcome.response 200 content p) (hc : content ≠ [])
    (hs : env.saveOk = true) :
    fsLookup (voice_chat (some a) history env w).2.fs HISTORY_PATH
      = some (FileContent.jsonHistory
          ((voice_chat (some a) history env w).1.history)) ∧
    (voice_chat (some a) history env w).1.history
      = history ++ [⟨userVoiceMsg, some aiVoiceMsg, env.timestamp⟩] := by
  have hce : content.isEmpty = false := by
    cases content with
    | nil => exact absurd rfl hc
    | cons x xs => rfl
  have hlen : content.length ≠ 0 := by
    cases content with
    | nil => exact absurd rfl hc
    | cons x xs => simp
  simp [voice_chat, doRequest, hw, hh, ho, hs, hce, hlen, fsExists_fsWrite_self,
    fsSize_fsWrite_self, FileContent.size, save_chat_history, fsLookup_fsWrite_self]

theorem success_append_persisted_witness :
    fsLookup (voice_chat (some ⟨16000, [0]⟩) []
        ⟨"12:00:00", 5, WriteOutcome.ok, HttpOutcome.response 200 [7] ParseResult.fail,
          WriteOutcome.ok, true⟩ ⟨[], 0⟩).2.fs HISTORY_PATH
      = some (FileContent.jsonHistory
          ((voice_chat (some ⟨16000, [0]⟩) []
              ⟨"12:00:00", 5, WriteOutcome.ok,
                HttpOutcome.response 200 [7] ParseResult.fail,
                WriteOutcome.ok, true⟩ ⟨[], 0⟩).1.history)) ∧
    (voice_chat (some ⟨16000, [0]⟩) []
        ⟨"12:00:00", 5, WriteOutcome.ok, HttpOutcome.response 200 [7] ParseResult.fail,
          WriteOutcome.ok, true⟩ ⟨[], 0⟩).1.history
      = [] ++ [⟨userVoiceMsg, some aiVoiceMsg, "12:00:00"⟩] :=
  success_append_persisted ⟨16000, [0]⟩ []
    ⟨"12:00:00", 5, WriteOutcome.ok, HttpOutcome.response 200 [7] ParseResult.fail,
      WriteOutcome.ok, true⟩ ⟨[], 0⟩ [7] ParseResult.fail rfl rfl rfl (by decide) rfl

/-- Claim C10: `voice_chat` is total at its public interface — it always
returns a result triple: the output path is absent except on the success
status, the returned history is the input history or the input history with
exactly one turn appended, and the exception branch of the outer handler
(modelled by a raising WAV write) yields an error result rather than
propagating. -/
theorem voice_chat_total_classified ( audio : Option AudioClip)
    (history : List Turn) (env : Env) (w : World) :
    ((voice_chat audio history env w).1.output = none ∨
     (voice_chat audio history env w).1.status = successMsg) ∧
    ((voice_chat audio history env w).1.history = history ∨
     ∃ t : Turn, (voice_chat audio history env w).1.history = history ++ [t]) ∧
    (∀ clip : AudioClip, ∀ m : String, audio = some clip →
      env.wavWrite = WriteOutcome.raised m →
      (voice_chat audio history env w).1.output = none ∧
      (voice_chat audio history env w).1.status = unexpectedMsg m) := by
  refine ⟨?_, ?_, ?_⟩
  · cases audio with
    | none => left; rfl
    | some a =>
      rcases voice_chat_cases a history env w with ⟨h1, _, _⟩ | ⟨_, h2, _⟩ | ⟨h1, _⟩
      · right; exact h1
      · left; exact h2
      · left; exact h1
  · cases audio with
    | none => left; rfl
    | some a =>
      rcases voice_chat_cases a history env w with ⟨_, _, h3⟩ | ⟨_, _, h3⟩ | ⟨_, h2⟩
      · right; exact ⟨_, h3⟩
      · left; exact h3
      · right; exact ⟨_, h2⟩
  · intro clip m hac hrw
    subst hac
    simp [voice_chat, hrw, errorReturn]

theorem voice_chat_total_classified_witness :
    (voice_chat (some ⟨16000, [0]⟩) []
        ⟨"12:00:00", 5, WriteOutcome.raised "boom", HttpOutcome.timeout,
          WriteOutcome.ok, true⟩ ⟨[], 0⟩).1.output = none ∧
    (voice_chat (some ⟨16000, [0]⟩) []
        ⟨"12:00:00", 5, WriteOutcome.raised "boom", HttpOutcome.timeout,
          WriteOutcome.ok, true⟩ ⟨[], 0⟩).1.status = unexpectedMsg "boom" :=
  (voice_chat_total_classified (some ⟨16000, [0]⟩) []
      ⟨"12:00:00", 5, WriteOutcome.raised "boom", HttpOutcome.timeout,
        WriteOutcome.ok, true⟩ ⟨[], 0⟩).2.2 ⟨16000, [0]⟩ "boom" rfl rfl

end VoiceChat
